import Mathlib

/-!
Verification of the biotech catalyst radar alerting subsystem.

This file gives a shallow embedding of the alerting code:

* `AlertAgentM` models `src/agents/alert_agent.py` (saved-search sweep:
  `find_new_matches`, `send_notification`, `check_saved_searches`,
  `_is_duplicate_alert`, `_can_send_notification`).
* `WatchlistAgentM` models `src/agents/watchlist_agent.py` together with the
  SQLite queries it relies on (`get_all_catalysts`, `get_user_alerts`,
  `get_latest_sec_filing` from `src/utils/sqlite_db.py`).

Timestamps are measured in days (an integer day number); the 24-hour
deduplication window of `_alert_already_sent` is therefore one time unit.
Monetary and fractional quantities (market cap, cash runway months) are
rationals.  String formatting of alert messages is abstracted by the
inductive `TriggerEvent`, which records exactly the fields interpolated into
the Python message templates.
-/

namespace CatalystRadar

namespace AlertAgentM

/-- A row of the `catalysts` table as consumed by `AlertAgent`.
`createdAt` is the insertion timestamp (`created_at`), `completionDate` the
catalyst/completion date; both as day numbers. -/
structure Catalyst where
  id : Int
  ticker : Option String
  phase : Option String
  marketCap : Option ℚ
  indication : Option String
  enrollment : Option Int
  completionDate : Option Int
  createdAt : Int
deriving DecidableEq, Repr

/-- The `query_params` dict of a saved search.  `none` models an absent key;
`some` a present value (which Python may still treat as falsy: the empty
string, or the number 0). -/
structure SearchParams where
  phase : Option String := none
  maxMarketCap : Option ℚ := none
  minMarketCap : Option ℚ := none
  therapeuticArea : Option String := none
  minEnrollment : Option Int := none
  completionDateStart : Option Int := none
  completionDateEnd : Option Int := none
deriving DecidableEq, Repr

/-- Python truthiness on an optional string: `if "k" in params and params["k"]`
skips the filter when the key is absent or the value is the empty string. -/
def strSpec : Option String → Option String
  | some s => if s = "" then none else some s
  | none => none

/-- Python truthiness on an optional rational: 0 is falsy. -/
def ratSpec : Option ℚ → Option ℚ
  | some q => if q = 0 then none else some q
  | none => none

/-- Python truthiness on an optional integer: 0 is falsy. -/
def intSpec : Option Int → Option Int
  | some n => if n = 0 then none else some n
  | none => none

/-- Case-insensitive substring test, modelling the SQL
`indication ILIKE '%kw%'` filter of `find_new_matches`. -/
def ilikeContains (hay pat : String) : Bool :=
  decide (pat.toLower.data <:+: hay.toLower.data)

/-- One conditional filter stage of the Supabase query builder:
`if param: query = query.filter(...)`. -/
def stageFilter {β : Type} (o : Option β) (test : β → Catalyst → Bool)
    (l : List Catalyst) : List Catalyst :=
  match o with
  | some x => l.filter (test x)
  | none => l

/-- `.gte("created_at", last_checked)`. -/
def newSince (t : Int) (c : Catalyst) : Bool := decide (t ≤ c.createdAt)

/-- `.eq("phase", p)`. -/
def phaseEq (p : String) (c : Catalyst) : Bool := decide (c.phase = some p)

/-- `.lt("market_cap", m)`; NULL market cap fails the SQL comparison. -/
def capBelow (m : ℚ) (c : Catalyst) : Bool :=
  match c.marketCap with
  | some v => decide (v < m)
  | none => false

/-- `.gte("market_cap", m)`. -/
def capAtLeast (m : ℚ) (c : Catalyst) : Bool :=
  match c.marketCap with
  | some v => decide (m ≤ v)
  | none => false

/-- `.ilike("indication", "%kw%")`. -/
def areaMatch (kw : String) (c : Catalyst) : Bool :=
  match c.indication with
  | some ind => ilikeContains ind kw
  | none => false

/-- `.gte("enrollment", e)`. -/
def enrollAtLeast (e : Int) (c : Catalyst) : Bool :=
  match c.enrollment with
  | some v => decide (e ≤ v)
  | none => false

/-- `.gte("completion_date", d)`. -/
def complAfter (d : Int) (c : Catalyst) : Bool :=
  match c.completionDate with
  | some v => decide (d ≤ v)
  | none => false

/-- `.lte("completion_date", d)`. -/
def complBefore (d : Int) (c : Catalyst) : Bool :=
  match c.completionDate with
  | some v => decide (v ≤ d)
  | none => false

/-- `.not_.is_("ticker", "null")`. -/
def hasTicker (c : Catalyst) : Bool := decide (c.ticker ≠ none)

/-- Sort key for `ORDER BY completion_date ASC`: a missing completion date
sorts last (`NULLS LAST`, PostgreSQL's default for ascending order). -/
def completionKey (c : Catalyst) : WithTop Int :=
  match c.completionDate with
  | some d => (d : WithTop Int)
  | none => ⊤

/-- The comparison relation used to order query results. -/
def completionLe (a b : Catalyst) : Prop := completionKey a ≤ completionKey b

instance : DecidableRel completionLe := fun a b =>
  inferInstanceAs (Decidable (completionKey a ≤ completionKey b))

instance : IsTotal Catalyst completionLe := ⟨fun a b => le_total _ _⟩

instance : IsTrans Catalyst completionLe := ⟨fun _ _ _ h h' => le_trans h h'⟩

/-- `AlertAgent.find_new_matches`: the chain of Supabase filters applied to
the `catalysts` table, in the order the Python builds them, followed by
`ORDER BY completion_date ASC` and no limit. -/
def findNewMatches (params : SearchParams) (lastChecked : Option Int)
    (catalysts : List Catalyst) : List Catalyst :=
  let q := catalysts
  let q := stageFilter lastChecked newSince q
  let q := stageFilter (strSpec params.phase) phaseEq q
  let q := stageFilter (ratSpec params.maxMarketCap) capBelow q
  let q := stageFilter (ratSpec params.minMarketCap) capAtLeast q
  let q := stageFilter (strSpec params.therapeuticArea) areaMatch q
  let q := stageFilter (intSpec params.minEnrollment) enrollAtLeast q
  let q := stageFilter params.completionDateStart complAfter q
  let q := stageFilter params.completionDateEnd complBefore q
  let q := q.filter hasTicker
  q.insertionSort completionLe

/-- Specification-side predicate: the record has a ticker, is new since
`lastChecked`, and satisfies every specified criterion. -/
def matchesCriteria (params : SearchParams) (lastChecked : Option Int)
    (c : Catalyst) : Prop :=
  c.ticker ≠ none ∧
  (∀ t, lastChecked = some t → t ≤ c.createdAt) ∧
  (∀ p, strSpec params.phase = some p → c.phase = some p) ∧
  (∀ m, ratSpec params.maxMarketCap = some m →
    ∃ v, c.marketCap = some v ∧ v < m) ∧
  (∀ m, ratSpec params.minMarketCap = some m →
    ∃ v, c.marketCap = some v ∧ m ≤ v) ∧
  (∀ kw, strSpec params.therapeuticArea = some kw →
    ∃ ind, c.indication = some ind ∧ ilikeContains ind kw = true) ∧
  (∀ e, intSpec params.minEnrollment = some e →
    ∃ v, c.enrollment = some v ∧ e ≤ v) ∧
  (∀ d, params.completionDateStart = some d →
    ∃ v, c.completionDate = some v ∧ d ≤ v) ∧
  (∀ d, params.completionDateEnd = some d →
    ∃ v, c.completionDate = some v ∧ v ≤ d)

/-- A row of `saved_searches`. -/
structure SavedSearch where
  id : String
  userId : String
  name : String
  params : SearchParams
  channels : List String
  lastChecked : Option Int
  active : Bool
deriving DecidableEq, Repr

/-- A row of `alert_notifications`, as written by `_log_notification`. -/
structure NotifRecord where
  savedSearchId : String
  catalystId : Int
  userId : String
  channelsUsed : List String
deriving DecidableEq, Repr

/-- Deterministic environment for one replay of the agent: outcomes of the
external calls (`_can_send_notification`, `get_user_tier` RPC, and the
success of each channel send for a given user and catalyst). -/
structure Env where
  canSend : String → Bool
  tier : String → String
  emailOk : String → Int → Bool
  smsOk : String → Int → Bool
  slackOk : String → Int → Bool

/-- Database state visible to the saved-search sweep. -/
structure AState where
  searches : List SavedSearch
  catalysts : List Catalyst
  notifs : List NotifRecord

/-- `AlertAgent._is_duplicate_alert`: any `alert_notifications` row with this
`saved_search_id` and `catalyst_id`. -/
def isDuplicateAlert (notifs : List NotifRecord) (searchId : String)
    (catalystId : Int) : Bool :=
  notifs.any (fun r =>
    decide (r.savedSearchId = searchId) && decide (r.catalystId = catalystId))

/-- The `sent_channels` list built by `AlertAgent.send_notification`: email is
attempted whenever requested; SMS and Slack are attempted only when the user
tier is `"pro"`, and are otherwise skipped. -/
def sentChannels (tier : String) (channels : List String)
    (emailOk smsOk slackOk : Bool) : List String :=
  (if "email" ∈ channels then (if emailOk then ["email"] else []) else []) ++
  (if "sms" ∈ channels then
    (if tier = "pro" then (if smsOk then ["sms"] else []) else []) else []) ++
  (if "slack" ∈ channels then
    (if tier = "pro" then (if slackOk then ["slack"] else []) else []) else [])

/-- `AlertAgent.send_notification`: duplicate check, admission gate, tier-gated
channel sends, and the `alert_notifications` insert when at least one channel
succeeded.  Returns (success, updated notification table). -/
def sendNotification (env : Env) (notifs : List NotifRecord) (userId : String)
    (searchId : String) (c : Catalyst) (channels : List String) :
    Bool × List NotifRecord :=
  if isDuplicateAlert notifs searchId c.id then (false, notifs)
  else if env.canSend userId = false then (false, notifs)
  else
    let sent := sentChannels (env.tier userId) channels
      (env.emailOk userId c.id) (env.smsOk userId c.id) (env.slackOk userId c.id)
    if sent.isEmpty then (false, notifs)
    else (true, notifs ++ [⟨searchId, c.id, userId, sent⟩])

/-- Processing of one saved search inside `check_saved_searches`: find the new
matches and send a notification for each. -/
def processSearch (env : Env) (catalysts : List Catalyst)
    (notifs : List NotifRecord) (s : SavedSearch) : List NotifRecord :=
  (findNewMatches s.params s.lastChecked catalysts).foldl
    (fun ns c => (sendNotification env ns s.userId s.id c s.channels).2) notifs

/-- `AlertAgent.check_saved_searches` at clock time `now`: fetch the active
searches, process each in order, and set each processed search's
`last_checked` to `now` (the update is keyed on the search id). -/
def checkSavedSearches (env : Env) (st : AState) (now : Int) : AState :=
  let active := st.searches.filter (·.active)
  let notifs := active.foldl (fun ns s => processSearch env st.catalysts ns s)
    st.notifs
  { searches := st.searches.map (fun s =>
      if s.id ∈ active.map (·.id) then { s with lastChecked := some now } else s)
    catalysts := st.catalysts
    notifs := notifs }

/-- `AlertAgent._can_send_notification`.  The two RPC outcomes are modelled as
`Except Unit Bool` values: `Except.error` is a raised exception of the call
when it is executed.  The body mirrors the Python `try` block: the rate-limit
RPC runs first; a falsy result returns `False` without consulting the
quiet-hours RPC; any exception inside the block returns `True` (fail open). -/
def canSendNotification (rate quiet : Except Unit Bool) : Bool :=
  match rate with
  | Except.error _ => true
  | Except.ok canReceive =>
    if canReceive = false then false
    else
      match quiet with
      | Except.error _ => true
      | Except.ok isQuiet => !isQuiet

end AlertAgentM

namespace WatchlistAgentM

/-- A row of `catalysts_v2` joined with `companies` (as returned by
`SQLiteDB.get_all_catalysts`).  `catalystDate` is the catalyst date as a day
number; a NULL date is `none`. -/
structure WCatalyst where
  id : Int
  ticker : Option String
  catalystType : Option String
  catalystDate : Option Int
deriving DecidableEq, Repr

/-- The message contents interpolated into the Python alert templates; an
abstraction of the formatted `trigger_event` strings that keeps the
interpolated fields observable. -/
inductive TriggerEvent where
  /-- `"{ticker}: {catalyst_type} in {days} days"`. -/
  | dateWindow (ticker catalystType : String) (days : Int)
  /-- `"{ticker}: RED FLAG - Cash runway only {months} months"`. -/
  | redFlagCashRunway (ticker : String) (months : ℚ)
deriving DecidableEq, Repr

/-- An `Alert` object generated by the agent (before it is saved). -/
structure GenAlert where
  userId : Int
  ticker : String
  alertType : String
  triggerEvent : TriggerEvent
  catalystId : Option Int
  severity : String
deriving DecidableEq, Repr

/-- A row of `watchlist_alerts`, as created by `SQLiteDB.create_alert`
(`created_at` defaults to the insertion time). -/
structure StoredAlert where
  userId : Int
  ticker : String
  alertType : String
  triggerEvent : TriggerEvent
  catalystId : Option Int
  severity : String
  createdAt : Int
deriving DecidableEq, Repr

/-- `SQLiteDB.get_all_catalysts(days_ahead, include_expired=False)`:
`WHERE catalyst_date >= date('now') AND catalyst_date <= date('now', '+N days')`,
ordered by catalyst date ascending.  A NULL date fails the SQL comparison. -/
def getAllCatalysts (cats : List WCatalyst) (today daysAhead : Int) :
    List WCatalyst :=
  let rows := cats.filter (fun c =>
    match c.catalystDate with
    | some d => decide (today ≤ d) && decide (d ≤ today + daysAhead)
    | none => false)
  rows.insertionSort (fun a b =>
    a.catalystDate.getD 0 ≤ b.catalystDate.getD 0)

/-- Descending order on `created_at` used by `get_user_alerts`. -/
def createdDesc (a b : StoredAlert) : Prop := b.createdAt ≤ a.createdAt

instance : DecidableRel createdDesc := fun a b =>
  inferInstanceAs (Decidable (b.createdAt ≤ a.createdAt))

/-- `SQLiteDB.get_user_alerts(user_id, unread_only=False, limit)`:
the user's alerts ordered by `created_at DESC`, limited to `limit` rows. -/
def getUserAlerts (alerts : List StoredAlert) (userId : Int) (limit : Nat) :
    List StoredAlert :=
  ((alerts.filter (fun a => a.userId = userId)).insertionSort createdDesc).take
    limit

/-- `WatchlistAgent._alert_already_sent`: fetches the user's 100 most recent
alerts and returns `True` iff one of them has this ticker and alert type and
was created within the last 24 hours (one time unit).  The `context` argument
(threshold or condition name) is accepted but never read by the body. -/
def alertAlreadySent {α : Type} (alerts : List StoredAlert) (now : Int)
    (userId : Int) (ticker : String) (alertType : String) (context : α) :
    Bool :=
  (getUserAlerts alerts userId 100).any (fun a =>
    decide (a.ticker = ticker) && decide (a.alertType = alertType) &&
    decide (now - 1 < a.createdAt))

/-- `ALERT_TRIGGERS["date_window"]["thresholds"]`. -/
def thresholds : List Int := [90, 30, 14, 7]

/-- `ALERT_TRIGGERS["date_window"]["severity_map"]` with the `.get(_, "info")`
default. -/
def severityMap (t : Int) : String :=
  if t = 90 then "info"
  else if t = 30 then "info"
  else if t = 14 then "warning"
  else if t = 7 then "critical"
  else "info"

/-- The inner threshold loop of `_check_date_windows` for one catalyst:
iterate `thresholds` in order; skip a threshold when `days_until > threshold`
or when `_alert_already_sent` reports a duplicate (`continue`); otherwise fire
it and stop (`break`). -/
def firstFiringThreshold (alerts : List StoredAlert) (now : Int) (userId : Int)
    (ticker : String) (daysUntil : Int) : Option Int :=
  thresholds.find? (fun t =>
    decide (daysUntil ≤ t) &&
    !(alertAlreadySent alerts now userId ticker "date_window" t))

/-- `WatchlistAgent._check_date_windows`: query the catalysts up to 90 days
ahead, keep this ticker's, and fire at most one threshold per catalyst.  The
result pairs each generated alert with the threshold that fired it (the
threshold is what selects the severity; it is not stored in the alert row). -/
def checkDateWindows (alerts : List StoredAlert) (cats : List WCatalyst)
    (today now : Int) (ticker : String) (userId : Int) :
    List (Int × GenAlert) :=
  let tickerCats := (getAllCatalysts cats today 90).filter
    (fun c => c.ticker = some ticker)
  tickerCats.filterMap (fun c =>
    match c.catalystDate with
    | none => none
    | some d =>
      let daysUntil := d - today
      match firstFiringThreshold alerts now userId ticker daysUntil with
      | none => none
      | some t => some (t,
          { userId := userId
            ticker := ticker
            alertType := "date_window"
            triggerEvent := TriggerEvent.dateWindow ticker
              (c.catalystType.getD "Catalyst") daysUntil
            catalystId := some c.id
            severity := severityMap t }))

/-- A row of `sec_filings` as seen by `_check_red_flags`.  The SQLite schema
stores only the cash-runway extraction; the clinical-hold, CEO-departure and
going-concern flags of `ALERT_TRIGGERS["red_flag"]` have no column, so the
row dictionary never carries them — they are modelled as optional fields that
the code never reads. -/
structure Filing where
  filingType : String
  filingDate : Int
  cashRunwayMonths : Option ℚ
  clinicalHold : Option Bool
  ceoDeparture : Option Bool
  goingConcernWarning : Option Bool
deriving DecidableEq, Repr

/-- `SQLiteDB.get_latest_sec_filing`: the row of this filing type with the
greatest filing date (`ORDER BY filing_date DESC LIMIT 1`). -/
def getLatestSecFiling (filings : List Filing) (ftype : String) :
    Option Filing :=
  ((filings.filter (fun f => f.filingType = ftype)).insertionSort
    (fun a b => b.filingDate ≤ a.filingDate)).head?

/-- The body of the red-flag check for one found filing: the only condition
the code evaluates is `cash_runway_months < 6`. -/
def redFlagAlertsOfFiling (alerts : List StoredAlert) (now : Int)
    (ticker : String) (userId : Int) (f : Filing) : List GenAlert :=
  match f.cashRunwayMonths with
  | some runway =>
    if runway < 6 then
      if alertAlreadySent alerts now userId ticker "red_flag" "cash_runway"
      then []
      else [{ userId := userId
              ticker := ticker
              alertType := "red_flag"
              triggerEvent := TriggerEvent.redFlagCashRunway ticker runway
              catalystId := none
              severity := "critical" }]
    else []
  | none => []

/-- `WatchlistAgent._check_red_flags`: take the most recent 10-Q, falling back
to the most recent 10-K (`for filing_type in ["10-Q", "10-K"]: ... break`),
and evaluate the cash-runway condition on it; no filing yields no alerts. -/
def checkRedFlags (filings : List Filing) (alerts : List StoredAlert)
    (now : Int) (ticker : String) (userId : Int) : List GenAlert :=
  match getLatestSecFiling filings "10-Q" with
  | some f => redFlagAlertsOfFiling alerts now ticker userId f
  | none =>
    match getLatestSecFiling filings "10-K" with
    | some f => redFlagAlertsOfFiling alerts now ticker userId f
    | none => []

/-- Saving one generated alert (`SQLiteDB.create_alert` at time `now`). -/
def storeAlert (a : GenAlert) (now : Int) : StoredAlert :=
  { userId := a.userId
    ticker := a.ticker
    alertType := a.alertType
    triggerEvent := a.triggerEvent
    catalystId := a.catalystId
    severity := a.severity
    createdAt := now }

/-- One date-window sweep for a single watched (user, ticker) followed by
`_save_and_notify` of every generated alert (as `run_daily_check` does):
returns the grown alert table and the alerts fired in this sweep. -/
def dateWindowSweep (alerts : List StoredAlert) (cats : List WCatalyst)
    (today now : Int) (ticker : String) (userId : Int) :
    List StoredAlert × List (Int × GenAlert) :=
  let fired := checkDateWindows alerts cats today now ticker userId
  (alerts ++ fired.map (fun f => storeAlert f.2 now), fired)

/-- A sequence of date-window sweeps at the given `(today, now)` clock values
(in chronological order), accumulating the fired alerts of every sweep. -/
def runSweeps (cats : List WCatalyst) (ticker : String) (userId : Int) :
    List (Int × Int) → List StoredAlert → List (Int × GenAlert)
  | [], _ => []
  | (today, now) :: rest, alerts =>
    let step := dateWindowSweep alerts cats today now ticker userId
    step.2 ++ runSweeps cats ticker userId rest step.1

/-- The staircase scenario of the spec: one catalyst dated day 100, watched by
user 7, observed across five sweeps with `daysUntil` 95, 65, 25, 10 and 5. -/
def staircaseCatalyst : WCatalyst :=
  { id := 1, ticker := some "ACME", catalystType := some "PDUFA"
    catalystDate := some 100 }

/-- Sweep clock values (day numbers) giving `daysUntil` 95, 65, 25, 10, 5. -/
def staircaseClocks : List (Int × Int) :=
  [(5, 5), (35, 35), (75, 75), (90, 90), (95, 95)]

/-- All alerts fired across the staircase scenario, with the threshold that
fired each. -/
def staircaseFired : List (Int × GenAlert) :=
  runSweeps [staircaseCatalyst] "ACME" 7 staircaseClocks []

/-- The two-sweep scenario for the dedup invariant: the same catalyst observed
at `daysUntil` 65 and then 25, sweeps 40 days apart. -/
def dedupFired : List (Int × GenAlert) :=
  runSweeps [staircaseCatalyst] "ACME" 7 [(35, 35), (75, 75)] []

/-- A 10-Q filing with healthy cash runway but the clinical-hold,
CEO-departure and going-concern flags all set. -/
def flaggedFiling : Filing :=
  { filingType := "10-Q", filingDate := 0, cashRunwayMonths := some 12
    clinicalHold := some true, ceoDeparture := some true
    goingConcernWarning := some true }

/-- A 10-Q filing with only three months of cash runway. -/
def lowRunwayFiling : Filing :=
  { filingType := "10-Q", filingDate := 0, cashRunwayMonths := some 3
    clinicalHold := none, ceoDeparture := none
    goingConcernWarning := none }

/-- The alert fired by the second staircase sweep (`daysUntil` = 65). -/
def witnessAlert65 : GenAlert :=
  { userId := 7, ticker := "ACME", alertType := "date_window"
    triggerEvent := TriggerEvent.dateWindow "ACME" "PDUFA" 65
    catalystId := some 1, severity := "info" }

end WatchlistAgentM

namespace AlertAgentM

/-- A saved search with no filter criteria, email-only channel, last checked
at day 0. -/
def searchS : SavedSearch :=
  { id := "s1", userId := "u1", name := "all catalysts"
    params := {}, channels := ["email"], lastChecked := some 0, active := true }

/-- A catalyst created on day 5 (inside the search window of `searchS`). -/
def catalystX : Catalyst :=
  { id := 1, ticker := some "XBIO", phase := none, marketCap := none
    indication := none, enrollment := none, completionDate := some 50
    createdAt := 5 }

/-- An environment in which the user may be notified but every channel send
fails (e.g. the providers are down). -/
def envAllFail : Env :=
  { canSend := fun _ => true, tier := fun _ => "pro"
    emailOk := fun _ _ => false, smsOk := fun _ _ => false
    slackOk := fun _ _ => false }

/-- An environment for a starter-tier user whose email and SMS and Slack
providers would all succeed if invoked. -/
def envStarter : Env :=
  { canSend := fun _ => true, tier := fun _ => "starter"
    emailOk := fun _ _ => true, smsOk := fun _ _ => true
    slackOk := fun _ _ => true }

/-- Initial state for the failed-delivery scenario. -/
def stFail : AState :=
  { searches := [searchS], catalysts := [catalystX], notifs := [] }

/-- An environment in which every external call succeeds for a pro user. -/
def envOk : Env :=
  { canSend := fun _ => true, tier := fun _ => "pro"
    emailOk := fun _ _ => true, smsOk := fun _ _ => true
    slackOk := fun _ _ => true }

/-- Specification-side admission predicate `handled`: after a catalyst has
been processed for a search, one of the three reasons why a later
`send_notification` for the same pair writes no record holds. -/
def handled (env : Env) (ns : List NotifRecord) (u sid : String) (c : Catalyst)
    (ch : List String) : Prop :=
  isDuplicateAlert ns sid c.id = true ∨ env.canSend u = false ∨
  (sentChannels (env.tier u) ch (env.emailOk u c.id) (env.smsOk u c.id)
    (env.slackOk u c.id)).isEmpty = true

end AlertAgentM

/-! ### Query lemmas for `find_new_matches` -/

namespace AlertAgentM

lemma mem_stageFilter {β : Type} {o : Option β} {test : β → Catalyst → Bool}
    {l : List Catalyst} {c : Catalyst} :
    c ∈ stageFilter o test l ↔ c ∈ l ∧ ∀ x, o = some x → test x c = true := by
  cases o <;> simp [stageFilter, List.mem_filter]

lemma capBelow_iff {m : ℚ} {c : Catalyst} :
    capBelow m c = true ↔ ∃ v, c.marketCap = some v ∧ v < m := by
  cases h : c.marketCap <;> simp [capBelow, h]

lemma capAtLeast_iff {m : ℚ} {c : Catalyst} :
    capAtLeast m c = true ↔ ∃ v, c.marketCap = some v ∧ m ≤ v := by
  cases h : c.marketCap <;> simp [capAtLeast, h]

lemma areaMatch_iff {kw : String} {c : Catalyst} :
    areaMatch kw c = true ↔
      ∃ ind, c.indication = some ind ∧ ilikeContains ind kw = true := by
  cases h : c.indication <;> simp [areaMatch, h]

lemma enrollAtLeast_iff {e : Int} {c : Catalyst} :
    enrollAtLeast e c = true ↔ ∃ v, c.enrollment = some v ∧ e ≤ v := by
  cases h : c.enrollment <;> simp [enrollAtLeast, h]

lemma complAfter_iff {d : Int} {c : Catalyst} :
    complAfter d c = true ↔ ∃ v, c.completionDate = some v ∧ d ≤ v := by
  cases h : c.completionDate <;> simp [complAfter, h]

lemma complBefore_iff {d : Int} {c : Catalyst} :
    complBefore d c = true ↔ ∃ v, c.completionDate = some v ∧ v ≤ d := by
  cases h : c.completionDate <;> simp [complBefore, h]

/-- Membership characterisation of `find_new_matches`: exactly the catalysts
of the table that satisfy every specified criterion. -/
lemma mem_findNewMatches {params : SearchParams} {lastChecked : Option Int}
    {catalysts : List Catalyst} {c : Catalyst} :
    c ∈ findNewMatches params lastChecked catalysts ↔
      c ∈ catalysts ∧ matchesCriteria params lastChecked c := by
  unfold findNewMatches matchesCriteria
  rw [List.mem_insertionSort, List.mem_filter]
  simp only [mem_stageFilter, newSince, phaseEq, capBelow_iff, capAtLeast_iff,
    areaMatch_iff, enrollAtLeast_iff, complAfter_iff, complBefore_iff,
    hasTicker, decide_eq_true_eq]
  tauto

/-- The result of `find_new_matches` is sorted by completion date
ascending. -/
lemma sorted_findNewMatches (params : SearchParams) (lastChecked : Option Int)
    (catalysts : List Catalyst) :
    List.Sorted completionLe (findNewMatches params lastChecked catalysts) :=
  List.sorted_insertionSort completionLe _

/-- Advancing `last_checked` can only shrink the match set: a catalyst in the
window that starts at `now1` is in any window that starts no later. -/
lemma findNewMatches_mono_lastChecked {p : SearchParams}
    {cats : List Catalyst} {c : Catalyst} {now1 : Int} {lc0 : Option Int}
    (h0 : ∀ t, lc0 = some t → t ≤ now1)
    (hc : c ∈ findNewMatches p (some now1) cats) :
    c ∈ findNewMatches p lc0 cats := by
  rw [mem_findNewMatches] at hc ⊢
  obtain ⟨hmem, ht, hlc, rest⟩ := hc
  exact ⟨hmem, ht, fun t htt => le_trans (h0 t htt) (hlc now1 rfl), rest⟩

end AlertAgentM

/-! ### Sweep lemmas for `check_saved_searches` -/

namespace AlertAgentM

lemma sendNotification_append (env : Env) (ns : List NotifRecord)
    (u sid : String) (c : Catalyst) (ch : List String) :
    ∃ tail, (sendNotification env ns u sid c ch).2 = ns ++ tail := by
  unfold sendNotification
  split_ifs with h1 h2
  · exact ⟨[], (List.append_nil ns).symm⟩
  · exact ⟨[], (List.append_nil ns).symm⟩
  · dsimp only
    split_ifs with h3
    · exact ⟨[], (List.append_nil ns).symm⟩
    · exact ⟨_, rfl⟩

lemma isDuplicateAlert_mono {ns : List NotifRecord} {sid : String} {cid : Int}
    (l : List NotifRecord) (h : isDuplicateAlert ns sid cid = true) :
    isDuplicateAlert (ns ++ l) sid cid = true := by
  simp only [isDuplicateAlert, List.any_append, Bool.or_eq_true]
  exact Or.inl h

lemma handled_mono {env : Env} {ns : List NotifRecord} {u sid : String}
    {c : Catalyst} {ch : List String} (l : List NotifRecord)
    (h : handled env ns u sid c ch) : handled env (ns ++ l) u sid c ch := by
  rcases h with h | h | h
  · exact Or.inl (isDuplicateAlert_mono l h)
  · exact Or.inr (Or.inl h)
  · exact Or.inr (Or.inr h)

lemma handled_sendNotification (env : Env) (ns : List NotifRecord)
    (u sid : String) (c : Catalyst) (ch : List String) :
    handled env (sendNotification env ns u sid c ch).2 u sid c ch := by
  unfold handled sendNotification
  split_ifs with h1 h2
  · exact Or.inl h1
  · exact Or.inr (Or.inl h2)
  · dsimp only
    split_ifs with h3
    · exact Or.inr (Or.inr h3)
    · refine Or.inl ?_
      simp [isDuplicateAlert, List.any_append]

lemma sendNotification_of_handled {env : Env} {ns : List NotifRecord}
    {u sid : String} {c : Catalyst} {ch : List String}
    (h : handled env ns u sid c ch) :
    (sendNotification env ns u sid c ch).2 = ns := by
  unfold sendNotification
  rcases h with hd | hcs | hse
  · simp [hd]
  · split_ifs <;> simp_all
  · split_ifs <;> simp_all

lemma foldSend_append (env : Env) (u sid : String) (ch : List String) :
    ∀ (l : List Catalyst) (ns : List NotifRecord),
      ∃ tail, l.foldl (fun ns c => (sendNotification env ns u sid c ch).2) ns
        = ns ++ tail
  | [], ns => ⟨[], (List.append_nil ns).symm⟩
  | c :: l, ns => by
    obtain ⟨t1, h1⟩ := sendNotification_append env ns u sid c ch
    obtain ⟨t2, h2⟩ := foldSend_append env u sid ch l
      (sendNotification env ns u sid c ch).2
    exact ⟨t1 ++ t2, by rw [List.foldl_cons, h2, h1, List.append_assoc]⟩

lemma foldSend_handled (env : Env) (u sid : String) (ch : List String) :
    ∀ (l : List Catalyst) (ns : List NotifRecord) (c : Catalyst), c ∈ l →
      handled env
        (l.foldl (fun ns c => (sendNotification env ns u sid c ch).2) ns)
        u sid c ch := by
  intro l
  induction l with
  | nil => intro ns c hc; exact absurd hc (List.not_mem_nil c)
  | cons c0 l ih =>
    intro ns c hc
    rcases List.mem_cons.mp hc with rfl | hmem
    · rw [List.foldl_cons]
      obtain ⟨tail, htail⟩ := foldSend_append env u sid ch l
        (sendNotification env ns u sid c ch).2
      rw [htail]
      exact handled_mono tail (handled_sendNotification env ns u sid c ch)
    · exact ih _ c hmem

lemma foldSend_of_handled (env : Env) (u sid : String) (ch : List String) :
    ∀ (l : List Catalyst) (ns : List NotifRecord),
      (∀ c ∈ l, handled env ns u sid c ch) →
      l.foldl (fun ns c => (sendNotification env ns u sid c ch).2) ns = ns := by
  intro l
  induction l with
  | nil => intro ns _; rfl
  | cons c0 l ih =>
    intro ns h
    rw [List.foldl_cons, sendNotification_of_handled (h c0 (List.mem_cons_self c0 l))]
    exact ih ns (fun c hc => h c (List.mem_cons_of_mem c0 hc))

lemma processSearch_append (env : Env) (cats : List Catalyst)
    (ns : List NotifRecord) (s : SavedSearch) :
    ∃ tail, processSearch env cats ns s = ns ++ tail :=
  foldSend_append env s.userId s.id s.channels _ ns

lemma processSearch_handled (env : Env) (cats : List Catalyst)
    (ns : List NotifRecord) (s : SavedSearch) (c : Catalyst)
    (hc : c ∈ findNewMatches s.params s.lastChecked cats) :
    handled env (processSearch env cats ns s) s.userId s.id c s.channels :=
  foldSend_handled env s.userId s.id s.channels _ ns c hc

lemma processSearch_of_handled {env : Env} {cats : List Catalyst}
    {ns : List NotifRecord} {s : SavedSearch}
    (h : ∀ c ∈ findNewMatches s.params s.lastChecked cats,
      handled env ns s.userId s.id c s.channels) :
    processSearch env cats ns s = ns :=
  foldSend_of_handled env s.userId s.id s.channels _ ns h

lemma sweepFold_append (env : Env) (cats : List Catalyst) :
    ∀ (ss : List SavedSearch) (ns : List NotifRecord),
      ∃ tail, ss.foldl (fun ns s => processSearch env cats ns s) ns = ns ++ tail
  | [], ns => ⟨[], (List.append_nil ns).symm⟩
  | s0 :: ss, ns => by
    obtain ⟨t1, h1⟩ := processSearch_append env cats ns s0
    obtain ⟨t2, h2⟩ := sweepFold_append env cats ss (processSearch env cats ns s0)
    exact ⟨t1 ++ t2, by rw [List.foldl_cons, h2, h1, List.append_assoc]⟩

/-- After a sweep's fold over the searches, every (search, matched catalyst)
pair that was processed is `handled` in the resulting notification table. -/
lemma sweepFold_handled (env : Env) (cats : List Catalyst) :
    ∀ (ss : List SavedSearch) (ns : List NotifRecord) (s : SavedSearch),
      s ∈ ss → ∀ c ∈ findNewMatches s.params s.lastChecked cats,
      handled env (ss.foldl (fun ns s => processSearch env cats ns s) ns)
        s.userId s.id c s.channels := by
  intro ss
  induction ss with
  | nil => intro ns s hs; exact absurd hs (List.not_mem_nil s)
  | cons s0 ss ih =>
    intro ns s hs c hc
    rcases List.mem_cons.mp hs with rfl | hmem
    · rw [List.foldl_cons]
      obtain ⟨tail, htail⟩ := sweepFold_append env cats ss
        (processSearch env cats ns s)
      rw [htail]
      exact handled_mono tail (processSearch_handled env cats ns s c hc)
    · exact ih _ s hmem c hc

lemma sweepFold_of_handled {env : Env} {cats : List Catalyst} :
    ∀ {ss : List SavedSearch} {ns : List NotifRecord},
      (∀ s ∈ ss, ∀ c ∈ findNewMatches s.params s.lastChecked cats,
        handled env ns s.userId s.id c s.channels) →
      ss.foldl (fun ns s => processSearch env cats ns s) ns = ns := by
    intro ss
    induction ss with
    | nil => intro ns _; rfl
    | cons s0 ss ih =>
      intro ns h
      rw [List.foldl_cons,
        processSearch_of_handled (h s0 (List.mem_cons_self s0 ss))]
      exact ih (fun s hs => h s (List.mem_cons_of_mem s0 hs))

end AlertAgentM

/-! ### Watchlist query lemmas -/

namespace WatchlistAgentM

lemma mem_getAllCatalysts {cats : List WCatalyst} {today daysAhead : Int}
    {c : WCatalyst} :
    c ∈ getAllCatalysts cats today daysAhead ↔
      c ∈ cats ∧ ∃ d, c.catalystDate = some d ∧ today ≤ d ∧
        d ≤ today + daysAhead := by
  unfold getAllCatalysts
  rw [List.mem_insertionSort, List.mem_filter]
  cases h : c.catalystDate <;> simp [h]

end WatchlistAgentM

/-! ### Per-sweep bookkeeping for `check_saved_searches` -/

namespace AlertAgentM

/-- Every active search carries `last_checked = now` after a sweep at `now`. -/
lemma lastChecked_after_sweep (env : Env) (st : AState) (now : Int) :
    ∀ s ∈ (checkSavedSearches env st now).searches, s.active = true →
      s.lastChecked = some now := by
  intro s hs hact
  replace hs : s ∈ st.searches.map (fun s0 =>
      if s0.id ∈ (st.searches.filter (·.active)).map (·.id)
      then { s0 with lastChecked := some now } else s0) := hs
  obtain ⟨s0, hs0, heq⟩ := List.mem_map.mp hs
  by_cases hid : s0.id ∈ (st.searches.filter (·.active)).map (·.id)
  · rw [if_pos hid] at heq
    rw [← heq]
  · rw [if_neg hid] at heq
    subst heq
    exact absurd
      (List.mem_map_of_mem (·.id) (List.mem_filter.mpr ⟨hs0, by simpa using hact⟩))
      hid

end AlertAgentM

/-! ### Claim theorems -/

/-- C1: the threshold staircase does not escalate.  For a single catalyst
observed across sweeps at `daysUntil` 95, 65, 25, 10 and 5 (sweeps more than
24 hours apart), `_check_date_windows` emits four `date_window` alerts, but
all four fire the 90-day threshold at severity `info` — because the loop
fires the *first* threshold of `[90, 30, 14, 7]` with `daysUntil ≤ t`
(which is always 90 once inside the window) and the duplicate check ignores
the threshold.  The severity sequence is therefore not the claimed
`info, info, warning, critical`. -/
theorem spec_C1_staircase_never_escalates :
    WatchlistAgentM.staircaseFired.map (fun f => (f.1, f.2.severity)) =
      [(90, "info"), (90, "info"), (90, "info"), (90, "info")] ∧
    WatchlistAgentM.staircaseFired.map (fun f => f.2.severity) ≠
      ["info", "info", "warning", "critical"] := by
  constructor
  · decide
  · decide

/-- C2: the date-window dedup invariant is violated.  Two sweeps 40 days
apart (observed `daysUntil` 65 and then 25) both create a `date_window`
alert for the identical `(user, ticker, threshold)` triple `(7, "ACME", 90)`,
because `_alert_already_sent` matches only on `(user, ticker, alert_type)`
within 24 hours and never reads the threshold passed as its `context`
argument. -/
theorem spec_C2_dedup_invariant_violated :
    WatchlistAgentM.dedupFired.map
        (fun f => (f.2.userId, f.2.ticker, f.2.alertType, f.1)) =
      [(7, "ACME", "date_window", 90), (7, "ACME", "date_window", 90)] := by
  decide

/-- C3: `_check_red_flags` evaluates only the cash-runway condition of the
four configured in `ALERT_TRIGGERS["red_flag"]`.  A filing with the
clinical-hold, CEO-departure and going-concern flags all set but twelve
months of runway yields zero alerts; a filing with three months of runway
yields the one critical cash-runway alert; a missing filing yields zero
alerts rather than an error. -/
theorem spec_C3_red_flags_only_cash_runway :
    WatchlistAgentM.checkRedFlags [WatchlistAgentM.flaggedFiling] [] 0 "ACME" 7
        = [] ∧
    WatchlistAgentM.checkRedFlags [] [] 0 "ACME" 7 = [] ∧
    WatchlistAgentM.checkRedFlags [WatchlistAgentM.lowRunwayFiling] [] 0
        "ACME" 7 =
      [{ userId := 7, ticker := "ACME", alertType := "red_flag"
         triggerEvent := WatchlistAgentM.TriggerEvent.redFlagCashRunway
           "ACME" 3
         catalystId := none, severity := "critical" }] := by
  refine ⟨by decide, by decide, by decide⟩

/-- C10: `_alert_already_sent` ignores its `context` argument: any two
context values (of any types) give the same answer, and the check returns
`True` exactly when the user's 100 most recent alerts contain one with this
ticker and alert type created within the last 24 hours. -/
theorem spec_C10_dedup_ignores_context {α β : Type}
    (alerts : List WatchlistAgentM.StoredAlert) (now userId : Int)
    (ticker alertType : String) (c1 : α) (c2 : β) :
    WatchlistAgentM.alertAlreadySent alerts now userId ticker alertType c1 =
      WatchlistAgentM.alertAlreadySent alerts now userId ticker alertType c2 ∧
    (WatchlistAgentM.alertAlreadySent alerts now userId ticker alertType c1
        = true ↔
      ∃ a ∈ WatchlistAgentM.getUserAlerts alerts userId 100,
        a.ticker = ticker ∧ a.alertType = alertType ∧
          now - 1 < a.createdAt) := by
  refine ⟨rfl, ?_⟩
  simp [WatchlistAgentM.alertAlreadySent, List.any_eq_true, and_assoc]

/-- C6: `find_new_matches` returns exactly the catalysts with a non-null
ticker, `created_at ≥ lastChecked` (all records when `lastChecked` is null),
and every specified criterion satisfied — phase equality, market-cap bounds,
case-insensitive substring match of the therapeutic keyword against the
indication, enrollment lower bound, completion-date range — ordered by
completion date ascending with no limit. -/
theorem spec_C6_findNewMatches_semantics (params : AlertAgentM.SearchParams)
    (lastChecked : Option Int) (catalysts : List AlertAgentM.Catalyst) :
    (∀ c, c ∈ AlertAgentM.findNewMatches params lastChecked catalysts ↔
      c ∈ catalysts ∧ AlertAgentM.matchesCriteria params lastChecked c) ∧
    List.Sorted AlertAgentM.completionLe
      (AlertAgentM.findNewMatches params lastChecked catalysts) :=
  ⟨fun _ => AlertAgentM.mem_findNewMatches,
    AlertAgentM.sorted_findNewMatches params lastChecked catalysts⟩

/-- C8: the admission gate fails open.  If the rate-limit lookup raises, the
gate returns `true` whatever the quiet-hours check would do; if the
quiet-hours lookup raises (it only runs after the rate-limit lookup returned
a truthy value), the gate returns `true` unless the rate-limit lookup had
already legitimately answered `false`. -/
theorem spec_C8_fail_open (r q : Except Unit Bool) :
    AlertAgentM.canSendNotification (Except.error ()) q = true ∧
    (AlertAgentM.canSendNotification r (Except.error ()) = true ∨
      r = Except.ok false) := by
  refine ⟨rfl, ?_⟩
  rcases r with e | b
  · exact Or.inl rfl
  · cases b
    · exact Or.inr rfl
    · exact Or.inl rfl

/-- C9: a past-dated catalyst never produces a `date_window` alert: every
alert emitted by `_check_date_windows` reports a non-negative `daysUntil`,
because `get_all_catalysts` only returns catalysts dated from today
onward. -/
theorem spec_C9_no_past_date_alert
    (alerts : List WatchlistAgentM.StoredAlert)
    (cats : List WatchlistAgentM.WCatalyst) (today now : Int)
    (ticker : String) (userId : Int) (p : Int × WatchlistAgentM.GenAlert)
    (hp : p ∈ WatchlistAgentM.checkDateWindows alerts cats today now ticker
      userId)
    (tk ct : String) (d : Int)
    (he : p.2.triggerEvent = WatchlistAgentM.TriggerEvent.dateWindow tk ct d) :
    0 ≤ d := by
  unfold WatchlistAgentM.checkDateWindows at hp
  obtain ⟨c, hc, hmk⟩ := List.mem_filterMap.mp hp
  rw [List.mem_filter] at hc
  obtain ⟨hcq, -⟩ := hc
  obtain ⟨-, d0, hd0, htoday, -⟩ := WatchlistAgentM.mem_getAllCatalysts.mp hcq
  rw [hd0] at hmk
  dsimp only at hmk
  rcases hft : WatchlistAgentM.firstFiringThreshold alerts now userId ticker
      (d0 - today) with _ | t
  · rw [hft] at hmk
    exact absurd hmk (by simp)
  · rw [hft] at hmk
    dsimp only at hmk
    injection hmk with hmk
    rw [← hmk] at he
    dsimp only at he
    injection he with h1 h2 h3
    omega

/-- Witness for C9 at the concrete second staircase sweep: the fired alert
reports `daysUntil = 65 ≥ 0`. -/
theorem spec_C9_no_past_date_alert_witness : (0 : Int) ≤ 65 :=
  spec_C9_no_past_date_alert [] [WatchlistAgentM.staircaseCatalyst] 35 35
    "ACME" 7 (90, WatchlistAgentM.witnessAlert65) (by decide)
    "ACME" "PDUFA" 65 (by decide)

/-- C4 counterexample: a catalyst matched by a sweep whose only channel send
fails is *not* returned by the next run's `find_new_matches`.  Concretely:
the search (last checked at day 0) matches the catalyst created on day 5 in
the run at day 10; every send fails, so no `alert_notifications` row is
written; the run still advances `last_checked` to day 10; and the next run's
query, which keeps only `created_at ≥ 10`, returns nothing. -/
theorem spec_C4_counterexample :
    AlertAgentM.findNewMatches AlertAgentM.searchS.params (some 0)
        [AlertAgentM.catalystX] = [AlertAgentM.catalystX] ∧
    (AlertAgentM.checkSavedSearches AlertAgentM.envAllFail AlertAgentM.stFail
        10).notifs = [] ∧
    (AlertAgentM.checkSavedSearches AlertAgentM.envAllFail AlertAgentM.stFail
        10).searches =
      [{ AlertAgentM.searchS with lastChecked := some 10 }] ∧
    AlertAgentM.findNewMatches AlertAgentM.searchS.params (some 10)
      (AlertAgentM.checkSavedSearches AlertAgentM.envAllFail
        AlertAgentM.stFail 10).catalysts = [] := by
  refine ⟨by decide, by decide, by decide, by decide⟩

/-- C4 amended: a saved-search match whose channel sends all fail is dropped,
not retried.  After a sweep at time `now1`, every search that is active
carries `last_checked = now1`, and `find_new_matches` for the next run
excludes every catalyst created before `now1` — in particular the one whose
delivery failed — regardless of whether a notification record was written. -/
theorem spec_C4_amended_no_retry (env : AlertAgentM.Env)
    (st : AlertAgentM.AState) (now1 : Int) (p : AlertAgentM.SearchParams)
    (c : AlertAgentM.Catalyst) (s : AlertAgentM.SavedSearch)
    (hs : s ∈ (AlertAgentM.checkSavedSearches env st now1).searches)
    (hact : s.active = true) (hlt : c.createdAt < now1) :
    s.lastChecked = some now1 ∧
    c ∉ AlertAgentM.findNewMatches p (some now1)
      (AlertAgentM.checkSavedSearches env st now1).catalysts := by
  refine ⟨AlertAgentM.lastChecked_after_sweep env st now1 s hs hact, ?_⟩
  intro hmem
  obtain ⟨-, -, hnew, -⟩ := AlertAgentM.mem_findNewMatches.mp hmem
  exact absurd (hnew now1 rfl) (by omega)

/-- Witness for C4-amended at the concrete failed-delivery scenario. -/
theorem spec_C4_amended_no_retry_witness :
    ({ AlertAgentM.searchS with lastChecked := some 10 }
        : AlertAgentM.SavedSearch).lastChecked = some 10 ∧
    AlertAgentM.catalystX ∉ AlertAgentM.findNewMatches {} (some 10)
      (AlertAgentM.checkSavedSearches AlertAgentM.envAllFail
        AlertAgentM.stFail 10).catalysts :=
  spec_C4_amended_no_retry AlertAgentM.envAllFail AlertAgentM.stFail 10 {}
    AlertAgentM.catalystX { AlertAgentM.searchS with lastChecked := some 10 }
    (by decide) (by decide) (by decide)

/-- C7: tier gating.  For a user whose tier is not `"pro"` requesting
channels `["email", "sms", "slack"]`, the sent-channel list is `["email"]`
when the email send succeeds and empty otherwise — SMS and Slack never
appear, whatever their send oracles would return — and consequently any
notification record written by `send_notification` for such a user carries
exactly `["email"]`. -/
theorem spec_C7_tier_gating (env : AlertAgentM.Env)
    (ns : List AlertAgentM.NotifRecord) (u sid : String)
    (c : AlertAgentM.Catalyst) (eo so ko : Bool)
    (h : env.tier u ≠ "pro") :
    AlertAgentM.sentChannels (env.tier u) ["email", "sms", "slack"] eo so ko =
      (if eo = true then ["email"] else []) ∧
    ((AlertAgentM.sendNotification env ns u sid c
        ["email", "sms", "slack"]).2 = ns ∨
      (AlertAgentM.sendNotification env ns u sid c
        ["email", "sms", "slack"]).2 = ns ++ [⟨sid, c.id, u, ["email"]⟩]) := by
  have hsc : ∀ eo so ko : Bool,
      AlertAgentM.sentChannels (env.tier u) ["email", "sms", "slack"] eo so ko
        = (if eo = true then ["email"] else []) := by
    intro eo so ko
    simp [AlertAgentM.sentChannels, h]
  refine ⟨hsc eo so ko, ?_⟩
  unfold AlertAgentM.sendNotification
  split_ifs with h1 h2
  · exact Or.inl rfl
  · exact Or.inl rfl
  · dsimp only
    rw [hsc]
    rcases heo : env.emailOk u c.id
    · simp
    · simp

/-- Witness for C7 with a starter-tier user whose email, SMS and Slack sends
would all succeed: only email is used. -/
theorem spec_C7_tier_gating_witness :
    AlertAgentM.sentChannels (AlertAgentM.envStarter.tier "u")
        ["email", "sms", "slack"] true true true =
      (if true = true then ["email"] else []) ∧
    ((AlertAgentM.sendNotification AlertAgentM.envStarter [] "u" "s"
        AlertAgentM.catalystX ["email", "sms", "slack"]).2 = [] ∨
      (AlertAgentM.sendNotification AlertAgentM.envStarter [] "u" "s"
        AlertAgentM.catalystX ["email", "sms", "slack"]).2 =
        [] ++ [⟨"s", AlertAgentM.catalystX.id, "u", ["email"]⟩]) :=
  spec_C7_tier_gating AlertAgentM.envStarter [] "u" "s" AlertAgentM.catalystX
    true true true (by decide)

/-- C5: sweep idempotence.  If every search's stored `last_checked` is no
later than the first run's clock `now1` (a sane clock; `getD now1` makes the
never-checked case vacuous), then a second run of `check_saved_searches` in
the same environment with no new catalysts creates no additional
`alert_notifications` records: run 1 already handled (recorded, suppressed,
or deterministically failed) every pair the second run can match. -/
theorem spec_C5_sweep_idempotent (env : AlertAgentM.Env)
    (st : AlertAgentM.AState) (now1 now2 : Int)
    (h : ∀ s ∈ st.searches, s.lastChecked.getD now1 ≤ now1) :
    (AlertAgentM.checkSavedSearches env
        (AlertAgentM.checkSavedSearches env st now1) now2).notifs =
      (AlertAgentM.checkSavedSearches env st now1).notifs := by
  have key : ∀ s1 ∈ (AlertAgentM.checkSavedSearches env st now1).searches.filter
        (·.active),
      ∀ c ∈ AlertAgentM.findNewMatches s1.params s1.lastChecked st.catalysts,
      AlertAgentM.handled env (AlertAgentM.checkSavedSearches env st now1).notifs
        s1.userId s1.id c s1.channels := by
    intro s1 hs1 c hc
    rw [List.mem_filter] at hs1
    obtain ⟨hmem, hact⟩ := hs1
    replace hmem : s1 ∈ st.searches.map (fun s0 =>
        if s0.id ∈ (st.searches.filter (·.active)).map (·.id)
        then { s0 with lastChecked := some now1 } else s0) := hmem
    obtain ⟨s0, hs0, heq⟩ := List.mem_map.mp hmem
    by_cases hid : s0.id ∈ (st.searches.filter (·.active)).map (·.id)
    · rw [if_pos hid] at heq
      subst heq
      have hc0 : c ∈ AlertAgentM.findNewMatches s0.params s0.lastChecked
          st.catalysts := by
        refine AlertAgentM.findNewMatches_mono_lastChecked ?_ hc
        intro t ht
        have := h s0 hs0
        rw [ht] at this
        simpa using this
      have hs0' : s0 ∈ st.searches.filter (·.active) :=
        List.mem_filter.mpr ⟨hs0, by simpa using hact⟩
      exact AlertAgentM.sweepFold_handled env st.catalysts
        (st.searches.filter (·.active)) st.notifs s0 hs0' c hc0
    · rw [if_neg hid] at heq
      subst heq
      exact absurd
        (List.mem_map_of_mem (·.id)
          (List.mem_filter.mpr ⟨hs0, by simpa using hact⟩)) hid
  exact AlertAgentM.sweepFold_of_handled key

/-- Witness for C5: a concrete two-run replay in which run 1 matches and
records one notification and run 2 adds nothing. -/
theorem spec_C5_sweep_idempotent_witness :
    (AlertAgentM.checkSavedSearches AlertAgentM.envOk
        (AlertAgentM.checkSavedSearches AlertAgentM.envOk AlertAgentM.stFail
          10) 20).notifs =
      (AlertAgentM.checkSavedSearches AlertAgentM.envOk AlertAgentM.stFail
        10).notifs :=
  spec_C5_sweep_idempotent AlertAgentM.envOk AlertAgentM.stFail 10 20
    (by decide)

end CatalystRadar
